import Mathlib

/-!
Verification of the `stosh` Python package (`src/stosh.py`): a shallow
embedding of the model-session lifecycle (`CompiledModel.load_data`,
`CompiledModel.hmc_nuts`), parameter marshalling
(`CompiledModel._kwargs_to_c_arrays`, `CompiledModel._value_to_string`),
and the artifact resolver (`compile`).

Modelling conventions:
* The native library behind the ctypes boundary is a stub `StubLib`
  whose `load_model` returns the handle-or-null together with the text
  the native side wrote into the caller's error buffer, and whose
  `run_sampler` returns the status code together with the output-buffer
  and error-buffer texts.  Native handles are `Nat`.
* Every public operation returns, besides its result, the list of
  native calls it performed, in order, so that call-order properties
  can be stated.
* Python exceptions become an `Option StoshError` (the raised error, if
  any) alongside the post-state of the session object, since a raised
  exception leaves the mutated object state visible to the caller.
* Filesystem paths are lists of components of the already-resolved
  absolute path; `Path.suffix` / `Path.stem` act on the final component
  exactly as CPython's `pathlib` computes them.
-/

/-- The single exception type of the package (`class StoshError`); it
carries only its message string. -/
structure StoshError where
  message : String
deriving DecidableEq, Repr

/-- Values a caller can pass as a sampling keyword argument.  A Python
float is represented by the shortest round-trip decimal text that
CPython's `str` produces for it (e.g. `0.9` renders as `"0.9"`); the
embedding carries that text directly since the marshalling code only
ever consumes the float through `str(value)`. -/
inductive PyVal where
  | bool (b : Bool)
  | int (n : Int)
  | float (text : String)
  | str (s : String)
deriving DecidableEq, Repr

/-- `CompiledModel._value_to_string`: booleans become `"true"`/`"false"`
(the `isinstance(value, bool)` test precedes everything, so a bool is
never rendered through the integer path even though `bool` is an `int`
subtype in Python); every other value is rendered with `str`. -/
def value_to_string : PyVal → String
  | .bool b => if b then "true" else "false"
  | .int n => toString n
  | .float text => text
  | .str s => s

/-- `CompiledModel._kwargs_to_c_arrays`: empty kwargs yield the pair
`(None, None)` (null array pointers); otherwise two parallel arrays of
the keys and the stringified values, in insertion order.  Python kwargs
have distinct keys, so the intermediate `string_kwargs` dict comprehension
preserves the entries one-for-one. -/
def kwargs_to_c_arrays (kwargs : List (String × PyVal)) :
    Option (List String) × Option (List String) :=
  if kwargs = [] then (none, none)
  else (some (kwargs.map (fun p => p.1)),
        some (kwargs.map (fun p => value_to_string p.2)))

/-- The sequence of elements the native side may read from a ctypes
array argument: a `None` argument is a null pointer, which together
with a count of zero denotes zero readable entries. -/
def cArrayElems (a : Option (List String)) : List String :=
  a.getD []

/-- One call across the ctypes boundary, as recorded in a trace. -/
inductive NativeCall where
  | free_model (handle : Nat)
  | load_model (dataPath : String) (seed : Nat)
  | run_sampler (handle : Nat) (keys values : List String) (count : Nat)
deriving DecidableEq, Repr

/-- Whether a native call is a `stosh_free_model` call. -/
def isFreeCall : NativeCall → Bool
  | .free_model _ => true
  | _ => false

/-- Stub of the native shared library: `load_model` maps the data path
and (already `c_uint`-wrapped) seed to the returned handle-or-null plus
the error-buffer text; `run_sampler` maps the handle, marshalled arrays
and count to the status plus the output-buffer and error-buffer texts.
Buffer capacity (1024 bytes) is the native side's contract and is not
re-modelled here. -/
structure StubLib where
  load_model : String → Nat → Option Nat × String
  run_sampler : Nat → List String → List String → Nat → Int × String × String
  -- run_sampler's result: (status, output-buffer text, error-buffer text),
  -- in the order the two buffers appear in the C signature.

/-- The mutable state of a `CompiledModel` object relevant to the
session protocol: `_model_handle`, which is `None` (`Empty` state) or a
live native handle (`Loaded` state). -/
structure Session where
  model_handle : Option Nat
deriving DecidableEq, Repr

/-- The `data` argument of `load_data`: absent, a path string, or a
structured in-memory dictionary (whose contents are irrelevant because
the code rejects it before looking inside). -/
inductive DataArg where
  | none
  | path (s : String)
  | dict
deriving DecidableEq, Repr

/-- Result of `load_data`: the post-state of the session object, the
raised exception if any, and the trace of native calls performed. -/
structure LoadResult where
  session : Session
  error : Option StoshError
  trace : List NativeCall
deriving DecidableEq, Repr

/-- `CompiledModel.load_data`.  Mirrors the source line by line: if a
handle is held, free it and clear the field first; then reject dict
data; then call `stosh_load_model` with the data path (or `""`) and the
`c_uint`-wrapped seed; a null return stores `None` in the handle field
and raises with the error-buffer text appended to a fixed prefix. -/
def load_data (lib : StubLib) (st : Session) (data : DataArg) (seed : Nat) :
    LoadResult :=
  let freed : Session × List NativeCall :=
    match st.model_handle with
    | some h => (⟨Option.none⟩, [NativeCall.free_model h])
    | Option.none => (st, [])
  match data with
  | .dict =>
      ⟨freed.1,
       some ⟨"Dictionary data not yet supported - please provide JSON file path"⟩,
       freed.2⟩
  | _ =>
      let data_str : String :=
        match data with
        | .path s => s
        | _ => ""
      let wrappedSeed := seed % 4294967296
      let ret := lib.load_model data_str wrappedSeed
      let trace := freed.2 ++ [NativeCall.load_model data_str wrappedSeed]
      match ret.1 with
      | Option.none =>
          ⟨⟨Option.none⟩, some ⟨"Failed to load data: " ++ ret.2⟩, trace⟩
      | some h => ⟨⟨some h⟩, Option.none, trace⟩

/-- Result of `hmc_nuts`: post-state, either the returned output
directory or the raised exception, and the native-call trace. -/
structure SampleResult where
  session : Session
  result : Except StoshError String
  trace : List NativeCall
deriving Repr

/-- `CompiledModel.hmc_nuts`.  Raises before any native call when no
handle is held; otherwise marshals the kwargs, calls
`stosh_run_samplers` with the arrays and `len(kwargs)`, and either
raises with the error-buffer text or returns the output-buffer text. -/
def hmc_nuts (lib : StubLib) (st : Session) (kwargs : List (String × PyVal)) :
    SampleResult :=
  match st.model_handle with
  | Option.none =>
      ⟨st, .error ⟨"No data loaded. Call load_data() first."⟩, []⟩
  | some h =>
      let arrays := kwargs_to_c_arrays kwargs
      let keys := cArrayElems arrays.1
      let values := cArrayElems arrays.2
      let res := lib.run_sampler h keys values kwargs.length
      let trace := [NativeCall.run_sampler h keys values kwargs.length]
      if res.1 ≠ 0 then
        ⟨st, .error ⟨"Sampling failed: " ++ res.2.2⟩, trace⟩
      else
        ⟨st, .ok res.2.1, trace⟩

/-!
### The artifact resolver: `compile` (src/stosh.py lines 200-297)

Paths are lists of components of the resolved absolute path (the code
calls `Path(stan_file).resolve()` first).  The external environment —
filesystem queries, the `STAN_ROOT` override, the current working
directory, and the `make` process — is a parameter `Env`.
-/

/-- Index (from the start) of the last `'.'` in a character list, or
`none`; mirrors CPython's `str.rfind`. -/
def rfindDotIdx (cs : List Char) : Option Nat :=
  match cs.reverse.indexOf? '.' with
  | Option.none => Option.none
  | some r => some (cs.length - 1 - r)

/-- `pathlib.PurePath.suffix` of a final path component: the last dot
and what follows it, provided the dot is neither the first nor the last
character (CPython: `i = name.rfind('.'); name[i:] if 0 < i < len(name) - 1
else ''`). -/
def pathSuffix (name : String) : String :=
  let cs := name.toList
  match rfindDotIdx cs with
  | Option.none => ""
  | some i =>
      if 0 < i ∧ i < cs.length - 1 then String.mk (cs.drop i) else ""

/-- `pathlib.PurePath.stem` of a final path component: the component
with `pathSuffix` removed (under the same dot-position proviso). -/
def pathStem (name : String) : String :=
  let cs := name.toList
  match rfindDotIdx cs with
  | Option.none => name
  | some i =>
      if 0 < i ∧ i < cs.length - 1 then String.mk (cs.take i) else name

/-- The final component of a path. -/
def fileName (p : List String) : String :=
  p.getLast?.getD ""

/-- Render a relative path the way `str(Path)` does: components joined
by `/`. -/
def joinPath (p : List String) : String :=
  String.intercalate "/" p

/-- Render a resolved absolute path: leading `/` plus the components. -/
def absPathStr (p : List String) : String :=
  "/" ++ joinPath p

/-- `pathlib.PurePath.relative_to`: defined exactly when the base is a
component-wise prefix, in which case it drops the base (a `ValueError`
in Python becomes `none`). -/
def relative_to (p base : List String) : Option (List String) :=
  if base.isPrefixOf p then some (p.drop base.length) else Option.none

/-- Outcome of one `subprocess.run(["make", target], ...)` call:
`returncode`, captured `stdout`, captured `stderr`. -/
structure BuildResult where
  returncode : Int
  stdout : String
  stderr : String
deriving DecidableEq, Repr

/-- The environment `compile` runs in: filesystem existence and
modification times, the optional `STAN_ROOT` override, the resolved
parent directory of the Python package, the current working directory,
whether the `make` executable can be found at all
(`FileNotFoundError` otherwise), the result of running `make` on a given
target, and the post-build filesystem existence check. -/
structure Env where
  fexists : List String → Bool
  mtime : List String → Nat
  stanRoot : Option (List String)
  packageParent : List String
  cwd : List String
  makeAvailable : Bool
  runMake : String → BuildResult
  fexistsAfterBuild : List String → Bool

/-- The makefile directory: the `STAN_ROOT` environment override if
set, else the parent of the Python package directory. -/
def resolvedMakefileDir (env : Env) : List String :=
  match env.stanRoot with
  | some d => d
  | Option.none => env.packageParent

/-- The expected artifact path: `<stem>_model.so` next to the source. -/
def soPath (stan_path : List String) : List String :=
  stan_path.dropLast ++ [pathStem (fileName stan_path) ++ "_model.so"]

/-- The `make` target computation of `compile` (lines 248-268): the
artifact path relative to the makefile directory; on `ValueError`
(source outside that tree) the artifact path relative to the current
working directory; on a second `ValueError` just the artifact's base
name. -/
def make_target (makefile_dir cwd stan_path : List String) : String :=
  let model_name := pathStem (fileName stan_path)
  match relative_to stan_path makefile_dir with
  | some rel => joinPath (rel.dropLast ++ [model_name ++ "_model.so"])
  | Option.none =>
      match relative_to stan_path cwd with
      | some rel => joinPath (rel.dropLast ++ [model_name ++ "_model.so"])
      | Option.none => model_name ++ "_model.so"

/-- The error message built at line 285 for a non-zero `make` exit. -/
def compileFailedMsg (tgt : String) (makefile_dir : List String)
    (res : BuildResult) : String :=
  "Compilation failed:\nCommand: make " ++ tgt ++
    "\nWorking directory: " ++ absPathStr makefile_dir ++
    "\nSTDOUT:\n" ++ res.stdout ++ "\nSTDERR:\n" ++ res.stderr

/-- `compile(stan_file, force)` as the artifact resolver: returns the
artifact path on success (the subsequent `CompiledModel` construction,
which loads the shared library, is the Native Boundary's concern and
not modelled here), plus the list of `make` targets actually invoked.
One subtlety traced from the source: the `StoshError`s raised inside
the `try` block at lines 271-293 (non-zero exit, missing artifact) are
caught by the generic `except Exception` handler at line 296 and
re-raised as `StoshError(f"Compilation error: {e}")`, whose string is
the inner message with that prefix — the captured process output is
still carried verbatim. -/
def stosh_compile (env : Env) (stan_path : List String) (force : Bool) :
    Except StoshError (List String) × List String :=
  if env.fexists stan_path = false then
    (.error ⟨"Stan file does not exist: " ++ absPathStr stan_path⟩, [])
  else if pathSuffix (fileName stan_path) ≠ ".stan" then
    (.error ⟨"File must have .stan extension: " ++ absPathStr stan_path⟩, [])
  else
    let makefile_dir := resolvedMakefileDir env
    if env.fexists (makefile_dir ++ ["makefile"]) = false then
      (.error ⟨"Makefile not found at: " ++ absPathStr (makefile_dir ++ ["makefile"])⟩, [])
    else
      let so_path := soPath stan_path
      if force = false ∧ env.fexists so_path = true ∧
          env.mtime stan_path < env.mtime so_path then
        (.ok so_path, [])
      else
        if env.makeAvailable = false then
          (.error ⟨"Make command not found. Ensure GNU make is installed and in PATH."⟩, [])
        else
          let tgt := make_target makefile_dir env.cwd stan_path
          let res := env.runMake tgt
          if res.returncode ≠ 0 then
            (.error ⟨"Compilation error: " ++ compileFailedMsg tgt makefile_dir res⟩,
             [tgt])
          else if env.fexistsAfterBuild so_path = false then
            (.error ⟨"Compilation error: Compilation succeeded but output file not found: "
                      ++ absPathStr so_path⟩, [tgt])
          else
            (.ok so_path, [tgt])

/-!
### Claims about the model session and marshalling
-/

/-- C1: on a session in state `Loaded` (holding handle `h`), `load_data`
performs exactly one `free_model` call, it is for `h`, and it is the
first native call of the operation — in particular it precedes the new
`load_model` call; and whenever the operation raises, the session is
left holding no handle, so a failed new load never leaves two live
handles. -/
theorem load_data_frees_old_handle_first (lib : StubLib) (h : Nat)
    (data : DataArg) (seed : Nat) :
    (load_data lib ⟨some h⟩ data seed).trace.countP isFreeCall = 1 ∧
    (load_data lib ⟨some h⟩ data seed).trace.head? =
      some (NativeCall.free_model h) ∧
    ((load_data lib ⟨some h⟩ data seed).error = Option.none ∨
      (load_data lib ⟨some h⟩ data seed).session.model_handle = Option.none) := by
  cases data with
  | dict => exact ⟨rfl, rfl, Or.inr rfl⟩
  | none =>
      rcases hr : (lib.load_model "" (seed % 4294967296)).1 with _ | h2 <;>
        simp [load_data, hr, isFreeCall]
  | path s =>
      rcases hr : (lib.load_model s (seed % 4294967296)).1 with _ | h2 <;>
        simp [load_data, hr, isFreeCall]

/-- C2: `hmc_nuts` on a session in state `Empty` raises the
`NoDataLoaded` error (`"No data loaded. Call load_data() first."`) and
performs no native call at all. -/
theorem hmc_nuts_empty_session_no_native_call (lib : StubLib)
    (kwargs : List (String × PyVal)) :
    (hmc_nuts lib ⟨Option.none⟩ kwargs).result =
      .error ⟨"No data loaded. Call load_data() first."⟩ ∧
    (hmc_nuts lib ⟨Option.none⟩ kwargs).trace = [] :=
  ⟨rfl, rfl⟩

/-- A stub library whose `load_model` entry point always returns null
after writing `"seed required"` into the error buffer. -/
def seedRequiredLib : StubLib where
  load_model := fun _ _ => (Option.none, "seed required")
  run_sampler := fun _ _ _ _ => (0, "", "")

/-- C3 counterexample: with the native `load_model` returning null and
error-buffer text `"seed required"`, `load_data` does raise, but the
raised error's message is not `"seed required"` exactly (the code
prefixes the buffer text with `"Failed to load data: "`). -/
theorem load_data_seed_required_message_counterexample :
    (load_data seedRequiredLib ⟨Option.none⟩
        (DataArg.path "bernoulli.data.json") 1).error.isSome = true ∧
    (load_data seedRequiredLib ⟨Option.none⟩
        (DataArg.path "bernoulli.data.json") 1).error ≠
      some ⟨"seed required"⟩ := by
  refine ⟨rfl, ?_⟩
  decide

/-- C3 as amended: whenever the native `load_model` call returns null,
`load_data` raises an error whose message is exactly
`"Failed to load data: "` followed by the error-buffer text verbatim
(so for buffer text `"seed required"` the message is
`"Failed to load data: seed required"`), and the session is left in
state `Empty`. -/
theorem load_data_null_return_prefixed_message (lib : StubLib)
    (st : Session) (p : String) (seed : Nat)
    (hnull : (lib.load_model p (seed % 4294967296)).1 = Option.none) :
    (load_data lib st (DataArg.path p) seed).error =
      some ⟨"Failed to load data: " ++ (lib.load_model p (seed % 4294967296)).2⟩ ∧
    (load_data lib st (DataArg.path p) seed).session.model_handle =
      Option.none := by
  rcases st with ⟨_ | h⟩ <;> simp [load_data, hnull]

/-- Witness for the amended C3, at the concrete stub whose error buffer
reads `"seed required"`. -/
theorem load_data_null_return_prefixed_message_witness :
    (load_data seedRequiredLib ⟨Option.none⟩
        (DataArg.path "bernoulli.data.json") 1).error =
      some ⟨"Failed to load data: seed required"⟩ ∧
    (load_data seedRequiredLib ⟨Option.none⟩
        (DataArg.path "bernoulli.data.json") 1).session.model_handle =
      Option.none :=
  load_data_null_return_prefixed_message seedRequiredLib ⟨Option.none⟩
    "bernoulli.data.json" 1 rfl

/-- C7: marshalling `{warmup: 100, refresh: 0, delta: 0.9}` yields the
key array `["warmup", "refresh", "delta"]` and the value array
`["100", "0", "0.9"]`, i.e. exactly the pairs `("warmup","100")`,
`("refresh","0")`, `("delta","0.9")`, with the original keys and the
original entry count preserved. -/
theorem kwargs_roundtrip_warmup_refresh_delta :
    kwargs_to_c_arrays
        [("warmup", PyVal.int 100), ("refresh", PyVal.int 0),
         ("delta", PyVal.float "0.9")] =
      (some ["warmup", "refresh", "delta"], some ["100", "0", "0.9"]) ∧
    (cArrayElems (kwargs_to_c_arrays
        [("warmup", PyVal.int 100), ("refresh", PyVal.int 0),
         ("delta", PyVal.float "0.9")]).1).zip
      (cArrayElems (kwargs_to_c_arrays
        [("warmup", PyVal.int 100), ("refresh", PyVal.int 0),
         ("delta", PyVal.float "0.9")]).2) =
      [("warmup", "100"), ("refresh", "0"), ("delta", "0.9")] ∧
    (cArrayElems (kwargs_to_c_arrays
        [("warmup", PyVal.int 100), ("refresh", PyVal.int 0),
         ("delta", PyVal.float "0.9")]).1).length = 3 :=
  ⟨rfl, rfl, rfl⟩

/-- C8: every boolean marshals to `"true"` or `"false"` according to
its value, never to `"1"` or `"0"`. -/
theorem bool_marshals_to_true_false (b : Bool) :
    value_to_string (PyVal.bool b) = (if b then "true" else "false") ∧
    value_to_string (PyVal.bool b) ≠ "1" ∧
    value_to_string (PyVal.bool b) ≠ "0" := by
  cases b <;> exact ⟨rfl, by decide, by decide⟩

/-- C9: the empty parameter set is accepted by `hmc_nuts` on a loaded
session: it marshals to null array arguments denoting zero readable
entries, and `run_sampler` is invoked with those arrays and count 0. -/
theorem empty_params_marshal_zero_length (lib : StubLib) (h : Nat) :
    kwargs_to_c_arrays [] = (Option.none, Option.none) ∧
    cArrayElems (kwargs_to_c_arrays []).1 = [] ∧
    cArrayElems (kwargs_to_c_arrays []).2 = [] ∧
    (hmc_nuts lib ⟨some h⟩ []).trace =
      [NativeCall.run_sampler h [] [] 0] := by
  refine ⟨rfl, rfl, rfl, ?_⟩
  show (if (lib.run_sampler h [] [] 0).1 ≠ 0 then _ else
    (⟨⟨some h⟩, Except.ok (lib.run_sampler h [] [] 0).2.1,
      [NativeCall.run_sampler h [] [] 0]⟩ : SampleResult)).trace = _
  split <;> rfl

/-- C10: calling `load_data` with structured (dictionary) data on a
session in state `Loaded` first frees the held handle — the trace is
exactly the one `free_model` call, with no `load_model` call — and only
then raises the unsupported-input error, leaving the session in state
`Empty` rather than preserving the previously loaded data. -/
theorem dict_rejection_after_handle_release (lib : StubLib) (h : Nat)
    (seed : Nat) :
    (load_data lib ⟨some h⟩ DataArg.dict seed).trace =
      [NativeCall.free_model h] ∧
    (load_data lib ⟨some h⟩ DataArg.dict seed).error =
      some ⟨"Dictionary data not yet supported - please provide JSON file path"⟩ ∧
    (load_data lib ⟨some h⟩ DataArg.dict seed).session.model_handle =
      Option.none :=
  ⟨rfl, rfl, rfl⟩

/-!
### Claims about the artifact resolver
-/

/-- C4: with `force = false`, an existing artifact whose modification
time is strictly newer than the source's, and the preconditions (source
exists with `.stan` suffix, makefile present) satisfied, `compile`
invokes no build at all and returns the existing artifact path. -/
theorem compile_fresh_artifact_skips_build (env : Env)
    (stan_path : List String)
    (hstan : env.fexists stan_path = true)
    (hsuf : pathSuffix (fileName stan_path) = ".stan")
    (hmak : env.fexists (resolvedMakefileDir env ++ ["makefile"]) = true)
    (hso : env.fexists (soPath stan_path) = true)
    (hfresh : env.mtime stan_path < env.mtime (soPath stan_path)) :
    stosh_compile env stan_path false = (.ok (soPath stan_path), []) := by
  simp [stosh_compile, hstan, hsuf, hmak, hso, hfresh]

/-- An environment where every queried file exists and the artifact of
`/home/bernoulli.stan` is strictly newer than the source. -/
def freshEnv : Env where
  fexists := fun _ => true
  mtime := fun p => if p = ["home", "bernoulli.stan"] then 0 else 1
  stanRoot := Option.none
  packageParent := ["stan"]
  cwd := ["home"]
  makeAvailable := true
  runMake := fun _ => ⟨0, "", ""⟩
  fexistsAfterBuild := fun _ => true

/-- Witness for C4 at the concrete environment `freshEnv`. -/
theorem compile_fresh_artifact_skips_build_witness :
    freshEnv.fexists ["home", "bernoulli.stan"] = true ∧
    pathSuffix (fileName ["home", "bernoulli.stan"]) = ".stan" ∧
    freshEnv.fexists (resolvedMakefileDir freshEnv ++ ["makefile"]) = true ∧
    freshEnv.fexists (soPath ["home", "bernoulli.stan"]) = true ∧
    freshEnv.mtime ["home", "bernoulli.stan"] <
      freshEnv.mtime (soPath ["home", "bernoulli.stan"]) ∧
    stosh_compile freshEnv ["home", "bernoulli.stan"] false =
      (.ok (soPath ["home", "bernoulli.stan"]), []) :=
  ⟨by decide, by decide, by decide, by decide, by decide,
   compile_fresh_artifact_skips_build freshEnv ["home", "bernoulli.stan"]
     (by decide) (by decide) (by decide) (by decide) (by decide)⟩

/-- C5: when a build runs and exits with a non-zero status, `compile`
fails with an error whose message embeds, verbatim and unsummarized,
the exact invocation (`make <target>`), the working directory, and the
captured stdout and stderr of the build process (see
`compileFailedMsg`, which concatenates them literally; the outer
`"Compilation error: "` prefix comes from the generic exception
re-wrap at line 297). -/
theorem compile_build_failure_carries_output (env : Env)
    (stan_path : List String) (force : Bool)
    (hstan : env.fexists stan_path = true)
    (hsuf : pathSuffix (fileName stan_path) = ".stan")
    (hmak : env.fexists (resolvedMakefileDir env ++ ["makefile"]) = true)
    (hstale : ¬(force = false ∧ env.fexists (soPath stan_path) = true ∧
        env.mtime stan_path < env.mtime (soPath stan_path)))
    (havail : env.makeAvailable = true)
    (hfail : (env.runMake
        (make_target (resolvedMakefileDir env) env.cwd stan_path)).returncode ≠ 0) :
    stosh_compile env stan_path force =
      (.error ⟨"Compilation error: " ++
        compileFailedMsg (make_target (resolvedMakefileDir env) env.cwd stan_path)
          (resolvedMakefileDir env)
          (env.runMake (make_target (resolvedMakefileDir env) env.cwd stan_path))⟩,
       [make_target (resolvedMakefileDir env) env.cwd stan_path]) := by
  simp [stosh_compile, hstan, hsuf, hmak, hstale, havail, hfail]

/-- An environment whose `make` invocation always fails with exit code
2, stdout `"out text"` and stderr `"err text"`. -/
def failingBuildEnv : Env where
  fexists := fun _ => true
  mtime := fun _ => 0
  stanRoot := some ["opt", "stan"]
  packageParent := ["stan"]
  cwd := ["work"]
  makeAvailable := true
  runMake := fun _ => ⟨2, "out text", "err text"⟩
  fexistsAfterBuild := fun _ => true

/-- Witness for C5 at the concrete environment `failingBuildEnv` with
`force = true`. -/
theorem compile_build_failure_carries_output_witness :
    failingBuildEnv.fexists ["home", "bernoulli.stan"] = true ∧
    pathSuffix (fileName ["home", "bernoulli.stan"]) = ".stan" ∧
    failingBuildEnv.fexists
      (resolvedMakefileDir failingBuildEnv ++ ["makefile"]) = true ∧
    ¬(true = false ∧
        failingBuildEnv.fexists (soPath ["home", "bernoulli.stan"]) = true ∧
        failingBuildEnv.mtime ["home", "bernoulli.stan"] <
          failingBuildEnv.mtime (soPath ["home", "bernoulli.stan"])) ∧
    failingBuildEnv.makeAvailable = true ∧
    (failingBuildEnv.runMake (make_target (resolvedMakefileDir failingBuildEnv)
        failingBuildEnv.cwd ["home", "bernoulli.stan"])).returncode ≠ 0 ∧
    stosh_compile failingBuildEnv ["home", "bernoulli.stan"] true =
      (.error ⟨"Compilation error: " ++
        compileFailedMsg
          (make_target (resolvedMakefileDir failingBuildEnv)
            failingBuildEnv.cwd ["home", "bernoulli.stan"])
          (resolvedMakefileDir failingBuildEnv)
          (failingBuildEnv.runMake
            (make_target (resolvedMakefileDir failingBuildEnv)
              failingBuildEnv.cwd ["home", "bernoulli.stan"]))⟩,
       [make_target (resolvedMakefileDir failingBuildEnv)
          failingBuildEnv.cwd ["home", "bernoulli.stan"]]) :=
  ⟨by decide, by decide, by decide, by decide, by decide, by decide,
   compile_build_failure_carries_output failingBuildEnv
     ["home", "bernoulli.stan"] true (by decide) (by decide) (by decide)
     (by decide) (by decide) (by decide)⟩

/-- C6: whenever a build is needed (and the build tool is present),
`compile` invokes `make` exactly once, with the target computed by
`make_target`; and `make_target` follows the precedence order — the
artifact path relative to the makefile directory when the source lies
under it, else the artifact path relative to the current working
directory when the source lies under that, else just the artifact's
base name — with each fallback taken as a value, not an error. -/
theorem compile_build_invokes_make_once_with_precedence_target (env : Env)
    (stan_path : List String) (force : Bool)
    (hstan : env.fexists stan_path = true)
    (hsuf : pathSuffix (fileName stan_path) = ".stan")
    (hmak : env.fexists (resolvedMakefileDir env ++ ["makefile"]) = true)
    (hstale : ¬(force = false ∧ env.fexists (soPath stan_path) = true ∧
        env.mtime stan_path < env.mtime (soPath stan_path)))
    (havail : env.makeAvailable = true) :
    (stosh_compile env stan_path force).2 =
      [make_target (resolvedMakefileDir env) env.cwd stan_path] ∧
    (∀ rel, relative_to stan_path (resolvedMakefileDir env) = some rel →
      make_target (resolvedMakefileDir env) env.cwd stan_path =
        joinPath (rel.dropLast ++ [pathStem (fileName stan_path) ++ "_model.so"])) ∧
    (relative_to stan_path (resolvedMakefileDir env) = Option.none →
      (∀ rel, relative_to stan_path env.cwd = some rel →
        make_target (resolvedMakefileDir env) env.cwd stan_path =
          joinPath (rel.dropLast ++ [pathStem (fileName stan_path) ++ "_model.so"])) ∧
      (relative_to stan_path env.cwd = Option.none →
        make_target (resolvedMakefileDir env) env.cwd stan_path =
          pathStem (fileName stan_path) ++ "_model.so")) := by
  refine ⟨?_, ?_, ?_⟩
  · simp only [stosh_compile, hstan, hsuf, hmak, havail]
    simp only [if_neg hstale]
    simp
    split <;> first
    | rfl
    | (split <;> rfl)
  · intro rel hrel
    simp [make_target, hrel]
  · intro hnone
    refine ⟨?_, ?_⟩
    · intro rel hrel
      simp [make_target, hnone, hrel]
    · intro hnone2
      simp [make_target, hnone, hnone2]

/-- Witness for C6 at `failingBuildEnv` with source
`/opt/stan/models/bernoulli.stan`, which lies under the makefile
directory `/opt/stan`. -/
theorem compile_build_precedence_target_witness :
    failingBuildEnv.fexists ["opt", "stan", "models", "bernoulli.stan"] = true ∧
    pathSuffix (fileName ["opt", "stan", "models", "bernoulli.stan"]) = ".stan" ∧
    failingBuildEnv.fexists
      (resolvedMakefileDir failingBuildEnv ++ ["makefile"]) = true ∧
    ¬(true = false ∧
        failingBuildEnv.fexists
          (soPath ["opt", "stan", "models", "bernoulli.stan"]) = true ∧
        failingBuildEnv.mtime ["opt", "stan", "models", "bernoulli.stan"] <
          failingBuildEnv.mtime
            (soPath ["opt", "stan", "models", "bernoulli.stan"])) ∧
    failingBuildEnv.makeAvailable = true ∧
    ((stosh_compile failingBuildEnv ["opt", "stan", "models", "bernoulli.stan"] true).2 =
      [make_target (resolvedMakefileDir failingBuildEnv) failingBuildEnv.cwd
        ["opt", "stan", "models", "bernoulli.stan"]] ∧
    (∀ rel, relative_to ["opt", "stan", "models", "bernoulli.stan"]
        (resolvedMakefileDir failingBuildEnv) = some rel →
      make_target (resolvedMakefileDir failingBuildEnv) failingBuildEnv.cwd
          ["opt", "stan", "models", "bernoulli.stan"] =
        joinPath (rel.dropLast ++
          [pathStem (fileName ["opt", "stan", "models", "bernoulli.stan"]) ++ "_model.so"])) ∧
    (relative_to ["opt", "stan", "models", "bernoulli.stan"]
        (resolvedMakefileDir failingBuildEnv) = Option.none →
      (∀ rel, relative_to ["opt", "stan", "models", "bernoulli.stan"]
          failingBuildEnv.cwd = some rel →
        make_target (resolvedMakefileDir failingBuildEnv) failingBuildEnv.cwd
            ["opt", "stan", "models", "bernoulli.stan"] =
          joinPath (rel.dropLast ++
            [pathStem (fileName ["opt", "stan", "models", "bernoulli.stan"]) ++ "_model.so"])) ∧
      (relative_to ["opt", "stan", "models", "bernoulli.stan"]
          failingBuildEnv.cwd = Option.none →
        make_target (resolvedMakefileDir failingBuildEnv) failingBuildEnv.cwd
            ["opt", "stan", "models", "bernoulli.stan"] =
          pathStem (fileName ["opt", "stan", "models", "bernoulli.stan"]) ++ "_model.so"))) :=
  ⟨by decide, by decide, by decide, by decide, by decide,
   compile_build_invokes_make_once_with_precedence_target failingBuildEnv
     ["opt", "stan", "models", "bernoulli.stan"] true (by decide) (by decide)
     (by decide) (by decide) (by decide)⟩
